import Mathlib

/-!
Verification of the cluster-settings service and the groups accessor.

The development shallowly embeds the backend service
(`updateClusterSettings`, `getClusterSettings`, `readJupyterhubCfg`,
`patchCM` from the services file, and `getGroup` from the groups utility
file) as pure Lean functions over an explicit cluster state.

Modeling conventions:
* The Kubernetes API is a state of three named ConfigMaps plus a fault
  table that can make any single API verb on a named object fail with a
  chosen error, so that error-propagation behaviour can be stated.
  A call that is issued is recorded in a trace, whether or not it
  succeeds, so frame conditions and rollout decisions are observable.
* JavaScript numbers are modeled as `Option Nat`: the values flowing
  through this service are nonnegative integers (seconds, minutes,
  GiB); `none` stands for NaN and for non-integral floats, whose exact
  float semantics and decimal printing are not modeled because no
  behaviour examined here depends on them.
* A JS async function that can reject is modeled with `Except`;
  a promise whose result is never awaited by the source (the legacy
  ConfigMap patch) has its outcome discarded, exactly as the source
  discards it.
-/

namespace OdhDashboard

/-- ConfigMap `data` section: an association list from key to value. -/
abbrev CMData := List (String × String)

/-- Lookup of a key in ConfigMap data; `none` models a JS `undefined`
property access. -/
def getVal (m : CMData) (k : String) : Option String :=
  (m.find? (fun kv => kv.1 == k)).map (fun kv => kv.2)

/-- Overwrite-or-insert of one key, the effect of one entry of a
JSON merge patch on the `data` object. -/
def setKey (m : CMData) (k v : String) : CMData :=
  (k, v) :: m.filter (fun kv => !(kv.1 == k))

/-- Effect of a JSON merge patch body on existing ConfigMap data:
every key of the patch overwrites the stored key. -/
def mergeData (old patch : CMData) : CMData :=
  patch.foldl (fun m kv => setKey m kv.1 kv.2) old

/-- Error object thrown by the Kubernetes client.  `statusCode` is the
property `e.statusCode`, `respStatusCode` the property
`e.response.statusCode`; either can be absent (`undefined`) on errors
that are not HTTP errors, such as TypeError. -/
structure KubeErr where
  statusCode : Option Nat
  respStatusCode : Option Nat
  message : String
deriving DecidableEq, Repr

/-- HTTP 404 error raised by the API for a missing object. -/
def err404 : KubeErr := ⟨some 404, some 404, "not found"⟩

/-- HTTP 409 error raised by a create on an existing object. -/
def err409 : KubeErr := ⟨some 409, some 409, "conflict"⟩

/-- A JS TypeError from a property access on `undefined`: it has no
HTTP status fields. -/
def typeError (m : String) : KubeErr := ⟨none, none, m⟩

/-- API verb, used to address injected faults. -/
inductive Verb
  | read
  | patch
  | create
  | delete
deriving DecidableEq, Repr

/-- One observable API interaction.  Calls are recorded when they are
issued, so a failing call still appears in the trace. -/
inductive TraceEv
  | patchCall (name : String) (data : CMData)
  | createCall (name : String) (data : CMData)
  | deleteCall (name : String)
  | readCall (name : String)
  | rolloutDeployment (name : String)
  | rolloutDeploymentConfig (name : String)
deriving DecidableEq, Repr

/-- Cluster state: the three ConfigMaps the service touches, a fault
table injecting one error per (verb, object) pair, and the trace of
calls issued so far. -/
structure World where
  segmentCM : Option CMData
  nbcCM : Option CMData
  jupyterhubCM : Option CMData
  faults : List (Verb × String × KubeErr)
  trace : List TraceEv
deriving DecidableEq, Repr

/-- Name of the legacy ConfigMap (source constant `jupyterhubCfg`). -/
def jupyterhubCfg : String := "jupyterhub-cfg"

/-- Name of the culling ConfigMap (source constant `nbcCfg`). -/
def nbcCfg : String := "notebook-controller-culler-config"

/-- Name of the tracking ConfigMap (source constant `segmentKeyCfg`). -/
def segmentKeyCfg : String := "odh-segment-key-config"

/-- Source constant `DEFAULT_PVC_SIZE`. -/
def DEFAULT_PVC_SIZE : Nat := 20

/-- Source constant `DEFAULT_CULLER_TIMEOUT`, one year in seconds,
the sentinel meaning culling disabled. -/
def DEFAULT_CULLER_TIMEOUT : Nat := 31536000

/-- Source constant `DEFAULT_IDLENESS_CHECK_PERIOD` (minutes). -/
def DEFAULT_IDLENESS_CHECK_PERIOD : String := "1"

/-- A JS number as it occurs in this service: a nonnegative integer,
or `none` for NaN and for non-integral floats (whose bit-exact float
behaviour is not modeled; no modeled flow depends on them). -/
abbrev JsNum := Option Nat

/-- The record returned by the read endpoint (source `ClusterSettings`
type, with `userTrackingEnabled : boolean | null`). -/
structure ClusterSettings where
  pvcSize : JsNum
  cullerTimeout : JsNum
  userTrackingEnabled : Option Bool
deriving DecidableEq, Repr

/-- Source constant `DEFAULT_CLUSTER_SETTINGS`. -/
def DEFAULT_CLUSTER_SETTINGS : ClusterSettings :=
  ⟨some DEFAULT_PVC_SIZE, some DEFAULT_CULLER_TIMEOUT, none⟩

/-- Decimal digit test. -/
def isDigitChar (c : Char) : Bool := ('0' ≤ c) && (c ≤ '9')

/-- Parse a string of decimal digits; any other character makes the
result `none`. -/
def digitsToNat (l : List Char) : Option Nat :=
  l.foldl
    (fun acc c =>
      match acc with
      | none => none
      | some n => if isDigitChar c then some (n * 10 + (c.toNat - ('0').toNat)) else none)
    (some 0)

/-- Models the JS `Number()` conversion on the canonical decimal
numerals this service sends and stores.  Non-numeric strings give
`none` (NaN); exotic numeral formats (signs, decimals, exponents,
hex, whitespace) do not occur in the modeled flows.  Note JS
`Number` of the empty string is `0`, which this definition also
gives. -/
def jsNumber (s : String) : JsNum := digitsToNat s.data

/-- JS `Number()` applied to a possibly-`undefined` value:
`Number(undefined)` is NaN. -/
def jsNumberOpt (o : Option String) : JsNum := o.bind jsNumber

/-- JS truthiness of a possibly-`undefined` string: `undefined` and
the empty string are falsy, every other string is truthy. -/
def jsTruthyStr (o : Option String) : Bool :=
  match o with
  | some s => !(s == "")
  | none => false

/-- JS `String()` of a boolean. -/
def jsStringBool (b : Bool) : String := if b then "true" else "false"

/-- Decimal numeral of the rational n/100 with trailing zeros
stripped: `"x"` when n is a multiple of 100, `"x.y"` when of 10,
`"x.yz"` otherwise.  For the magnitudes this service handles, JS
shortest-round-trip printing of the double nearest n/100 yields
exactly this string: the printed decimal must round back to that
double, n/100 itself does, and any shorter decimal is too far away. -/
def decHundredths (n : Nat) : String :=
  if n % 100 == 0 then toString (n / 100)
  else if n % 10 == 0 then toString (n / 100) ++ "." ++ toString (n % 100 / 10)
  else toString (n / 100) ++ "." ++
    (if n % 100 < 10 then "0" ++ toString (n % 100) else toString (n % 100))

/-- The string JS stores for `String(t / 60)` on a natural t.  The
quotient t/60 has a finite decimal expansion exactly when 3 divides t,
and then t/60 = (5 * (t/3)) / 100 with at most two decimal places,
printed exactly (for example 90 stores `1.5`, 3600 stores `60`).
When 3 does not divide t the quotient is a non-terminating decimal
and JS prints the shortest decimal of the nearest double, around 17
significant digits (for example 100 stores `1.6666666666666667`);
those digits are floating-point behaviour this integer-valued model
does not reproduce, so they are represented by an explicitly marked
placeholder recording the exact rational.  No theorem below draws any
conclusion from the placeholder's text. -/
def jsStringOfDiv60 (t : Nat) : String :=
  if t % 3 == 0 then decHundredths (t / 3 * 5)
  else "float:" ++ toString t ++ "/60"

/-- `String(Number(s) / 60)` on a modeled number: `Number(undefined)`
and non-numerals are NaN, NaN/60 is NaN, and `String(NaN)` is the
string `NaN`. -/
def jsStringDiv60OfNum (o : JsNum) : String :=
  match o with
  | some t => jsStringOfDiv60 t
  | none => "NaN"

/-- JS multiplication by 60 on the modeled numbers (exact). -/
def jsMul60 (o : JsNum) : JsNum := o.map (fun n => n * 60)

/-- JS `replace` with a string pattern removes only the first
occurrence of the pattern (here the pattern is always removed, since
the source replaces with the empty string). -/
def matchesAt (s pat : List Char) : Bool :=
  match pat, s with
  | [], _ => true
  | _ :: _, [] => false
  | p :: ps, c :: cs => (c == p) && matchesAt cs ps

/-- Remove the first occurrence of `pat` from `s` (list form). -/
def removeFirstList (s pat : List Char) : List Char :=
  match s with
  | [] => []
  | c :: cs => if matchesAt (c :: cs) pat then (c :: cs).drop pat.length
               else c :: removeFirstList cs pat

/-- Source expression `s.replace(pat, "")`: JS `replace` with a string
pattern removes only the first occurrence. -/
def replaceFirst (s pat : String) : String := ⟨removeFirstList s.data pat.data⟩

/-- First injected fault registered for this verb and object name. -/
def findFault (w : World) (v : Verb) (n : String) : Option KubeErr :=
  (w.faults.find? (fun f => f.1 == v && f.2.1 == n)).map (fun f => f.2.2)

/-- ConfigMap addressed by name. -/
def getCM (w : World) (n : String) : Option CMData :=
  if n == segmentKeyCfg then w.segmentCM
  else if n == nbcCfg then w.nbcCM
  else if n == jupyterhubCfg then w.jupyterhubCM
  else none

/-- Replace the ConfigMap addressed by name. -/
def setCM (w : World) (n : String) (d : Option CMData) : World :=
  if n == segmentKeyCfg then { w with segmentCM := d }
  else if n == nbcCfg then { w with nbcCM := d }
  else if n == jupyterhubCfg then { w with jupyterhubCM := d }
  else w

/-- Record an issued call. -/
def addTrace (w : World) (ev : TraceEv) : World := { w with trace := w.trace ++ [ev] }

/-- The error, if any, that a read of the named ConfigMap raises in
this world: an injected read fault, or the natural 404 when the
object is absent. -/
def readErr (w : World) (n : String) : Option KubeErr :=
  match findFault w .read n with
  | some e => some e
  | none => match getCM w n with
            | some _ => none
            | none => some err404

/-- `coreV1Api.readNamespacedConfigMap`. -/
def readNamespacedConfigMap (w : World) (n : String) : Except KubeErr CMData × World :=
  let w1 := addTrace w (.readCall n)
  match findFault w .read n with
  | some e => (Except.error e, w1)
  | none =>
    match getCM w n with
    | some d => (Except.ok d, w1)
    | none => (Except.error err404, w1)

/-- `coreV1Api.patchNamespacedConfigMap` with a JSON merge patch on
`data`: merges patch keys into the stored data; 404 when the object
does not exist. -/
def patchNamespacedConfigMap (w : World) (n : String) (p : CMData) :
    Except KubeErr CMData × World :=
  let w1 := addTrace w (.patchCall n p)
  match findFault w .patch n with
  | some e => (Except.error e, w1)
  | none =>
    match getCM w n with
    | some old =>
      let d := mergeData old p
      (Except.ok d, setCM w1 n (some d))
    | none => (Except.error err404, w1)

/-- `coreV1Api.createNamespacedConfigMap`. -/
def createNamespacedConfigMap (w : World) (n : String) (d : CMData) :
    Except KubeErr CMData × World :=
  let w1 := addTrace w (.createCall n d)
  match findFault w .create n with
  | some e => (Except.error e, w1)
  | none =>
    match getCM w n with
    | some _ => (Except.error err409, w1)
    | none => (Except.ok d, setCM w1 n (some d))

/-- `coreV1Api.deleteNamespacedConfigMap`: 404 when absent. -/
def deleteNamespacedConfigMap (w : World) (n : String) :
    Except KubeErr Unit × World :=
  let w1 := addTrace w (.deleteCall n)
  match findFault w .delete n with
  | some e => (Except.error e, w1)
  | none =>
    match getCM w n with
    | some _ => (Except.ok (), setCM w1 n none)
    | none => (Except.error err404, w1)

/-- `rolloutDeployment` collaborator: fire-and-forget restart. -/
def rolloutDeployment (w : World) (n : String) : World :=
  addTrace w (.rolloutDeployment n)

/-- `rolloutDeploymentConfig` collaborator: fire-and-forget restart. -/
def rolloutDeploymentConfig (w : World) (n : String) : World :=
  addTrace w (.rolloutDeploymentConfig n)

/-- Source helper `patchCM`: a merge patch of the named ConfigMap. -/
def patchCM (w : World) (n : String) (p : CMData) : Except KubeErr CMData × World :=
  patchNamespacedConfigMap w n p

/-- Query parameters of the update endpoint; each may be absent. -/
structure Query where
  pvcSize : Option String
  cullerTimeout : Option String
  userTrackingEnabled : Option String
deriving DecidableEq, Repr

/-- What the update call resolves to: the returned object
`{success, error}`, the bare `undefined` produced when the catch
block falls through on a 404, or a rejection (the catch block itself
throws a TypeError when it evaluates `e.respose.body.message`, since
`e.respose` is a misspelling of `e.response` and is always
`undefined`). -/
inductive UpdateOutcome
  | result (success : Bool) (error : Option String)
  | undefinedResult
  | thrown (message : String)
deriving DecidableEq, Repr

/-- The catch block of `updateClusterSettings`.  On an error whose
`e.response?.statusCode` is not 404 it evaluates
`e.respose.body.message` — a property chain on `undefined` — so it
rejects with a TypeError instead of returning the intended
`{success: false, error}` object; on a 404 it skips the branch and
the function returns `undefined`. -/
def catchOutcome (e : KubeErr) : UpdateOutcome :=
  if !(e.respStatusCode == some 404) then
    UpdateOutcome.thrown "TypeError: cannot read properties of undefined (reading body)"
  else UpdateOutcome.undefinedResult

/-- First statement of the try block: unless the `userTrackingEnabled`
query parameter is the literal string `null`, patch the tracking
ConfigMap.  An omitted parameter also fails the `!==` comparison, so
a patch whose serialized body carries no field (JSON drops the
`undefined` value) is still issued. -/
def trackingStep (w : World) (q : Query) : Except KubeErr Unit × World :=
  if q.userTrackingEnabled == some "null" then (Except.ok (), w)
  else
    match patchCM w segmentKeyCfg
        (match q.userTrackingEnabled with
         | some s => [("segmentKeyEnabled", s)]
         | none => []) with
    | (Except.ok _, w1) => (Except.ok (), w1)
    | (Except.error e, w1) => (Except.error e, w1)

/-- Notebook-controller branch of the write: delete the culling
ConfigMap when the requested timeout is the disabled sentinel,
otherwise patch it, falling back to a create when the patch gets a
404.  A non-404 patch error is swallowed by the inner catch, which
only handles the 404 case. -/
def nbcWriteStep (w : World) (q : Query) : Except KubeErr Unit × World :=
  let n := jsNumberOpt q.cullerTimeout
  -- The source computes the number cullingTimeMin = Number(...) / 60
  -- and only ever observes it through String(cullingTimeMin); the
  -- model carries that string directly.
  let cullingTimeMin := jsStringDiv60OfNum n
  let isEnabled := !(n == some DEFAULT_CULLER_TIMEOUT)
  if !isEnabled then
    match deleteNamespacedConfigMap w nbcCfg with
    | (Except.ok _, w1) => (Except.ok (), w1)
    | (Except.error e, w1) => (Except.error e, w1)
  else
    match patchCM w nbcCfg
        [("ENABLE_CULLING", jsStringBool isEnabled),
         ("CULL_IDLE_TIME", cullingTimeMin)] with
    | (Except.ok _, w1) => (Except.ok (), w1)
    | (Except.error e, w1) =>
      if e.statusCode == some 404 then
        match createNamespacedConfigMap w1 nbcCfg
            [("ENABLE_CULLING", jsStringBool isEnabled),
             ("CULL_IDLE_TIME", cullingTimeMin),
             ("IDLENESS_CHECK_PERIOD", DEFAULT_IDLENESS_CHECK_PERIOD)] with
        | (Except.ok _, w2) => (Except.ok (), w2)
        | (Except.error e2, w2) => (Except.error e2, w2)
      else (Except.ok (), w1)

/-- Legacy branch of the write: the source calls `patchCM` on the
legacy ConfigMap without `await`, so the call is issued and its
outcome — success or rejection — is discarded; execution continues
regardless. -/
def legacyWriteStep (w : World) (q : Query) : World :=
  match q.pvcSize, q.cullerTimeout with
  | some p, some t =>
    (patchCM w jupyterhubCfg
      [("singleuser_pvc_size", p ++ "Gi"), ("culler_timeout", t)]).2
  | _, _ => w

/-- Rollout block: in notebook-controller mode always roll out the
controller deployment; in legacy mode re-read the legacy ConfigMap
and roll out the main deployment or the culler when the value read
back differs from the request.  A missing `singleuser_pvc_size` key
makes the property chain throw a TypeError. -/
def rolloutStep (w : World) (nbc : Bool) (q : Query) : Except KubeErr Unit × World :=
  if nbc then (Except.ok (), rolloutDeployment w "notebook-controller-deployment")
  else
    match readNamespacedConfigMap w jupyterhubCfg with
    | (Except.error e, w1) => (Except.error e, w1)
    | (Except.ok d, w1) =>
      match getVal d "singleuser_pvc_size" with
      | none => (Except.error (typeError "cannot read properties of undefined (reading replace)"), w1)
      | some pvcStr =>
        let w2 := if !(some (replaceFirst pvcStr "Gi") == q.pvcSize)
                  then rolloutDeploymentConfig w1 "jupyterhub" else w1
        let w3 := if !(getVal d "culler_timeout" == q.cullerTimeout)
                  then rolloutDeploymentConfig w2 "jupyterhub-idle-culler" else w2
        (Except.ok (), w3)

/-- Source `updateClusterSettings`: tracking patch, then the
pvc-size/timeout write (only when both query parameters are truthy),
then the rollout block, wrapped in the defective try/catch. -/
def updateClusterSettings (w : World) (nbc : Bool) (q : Query) : UpdateOutcome × World :=
  match trackingStep w q with
  | (Except.error e, w1) => (catchOutcome e, w1)
  | (Except.ok _, w1) =>
    let afterWrite : Except KubeErr Unit × World :=
      if jsTruthyStr q.pvcSize && jsTruthyStr q.cullerTimeout then
        if nbc then nbcWriteStep w1 q
        else (Except.ok (), legacyWriteStep w1 q)
      else (Except.ok (), w1)
    match afterWrite with
    | (Except.error e, w2) => (catchOutcome e, w2)
    | (Except.ok _, w2) =>
      match rolloutStep w2 nbc q with
      | (Except.error e, w3) => (catchOutcome e, w3)
      | (Except.ok _, w3) => (UpdateOutcome.result true none, w3)

/-- What the read call resolves to: the settings record, or a
rejection (only the culling-ConfigMap read rethrows). -/
inductive GetOutcome
  | ok (settings : ClusterSettings)
  | thrown (e : KubeErr)
deriving DecidableEq, Repr

/-- Source helper `readJupyterhubCfg`: read the legacy ConfigMap,
strip the `Gi` suffix from the size, and parse both numbers.  When
the size key is absent the property chain throws a TypeError, which
is modeled as an error result. -/
def readJupyterhubCfg (w : World) : Except KubeErr (JsNum × JsNum) × World :=
  match readNamespacedConfigMap w jupyterhubCfg with
  | (Except.error e, w1) => (Except.error e, w1)
  | (Except.ok d, w1) =>
    match getVal d "singleuser_pvc_size" with
    | none => (Except.error (typeError "cannot read properties of undefined (reading replace)"), w1)
    | some pvcStr =>
      (Except.ok (jsNumber (replaceFirst pvcStr "Gi"), jsNumberOpt (getVal d "culler_timeout")), w1)

/-- Source `getClusterSettings`: start from the defaults, overlay the
tracking flag (read failures logged and swallowed), then overlay the
authoritative store.  In notebook-controller mode a 404 on the
culling ConfigMap means culling disabled, any other read error is
rethrown; `Boolean(ENABLE_CULLING)` is JS truthiness, so any
non-empty stored string — including the string `false` — counts as
enabled.  In legacy mode every read failure is swallowed and the
defaults kept. -/
def getClusterSettings (w : World) (nbc : Bool) : GetOutcome × World :=
  let s0 := DEFAULT_CLUSTER_SETTINGS
  match readNamespacedConfigMap w segmentKeyCfg with
  | (rSeg, w1) =>
    let s1 :=
      match rSeg with
      | Except.ok d => { s0 with userTrackingEnabled := some (getVal d "segmentKeyEnabled" == some "true") }
      | Except.error _ => s0
    if nbc then
      match readNamespacedConfigMap w1 nbcCfg with
      | (Except.ok d, w2) =>
        let cullerTimeout := getVal d "CULL_IDLE_TIME"
        let isEnabled := jsTruthyStr (getVal d "ENABLE_CULLING")
        if isEnabled then
          (GetOutcome.ok { s1 with cullerTimeout := jsMul60 (jsNumberOpt cullerTimeout) }, w2)
        else (GetOutcome.ok s1, w2)
      | (Except.error e, w2) =>
        if e.statusCode == some 404 then (GetOutcome.ok s1, w2)
        else (GetOutcome.thrown e, w2)
    else
      match readJupyterhubCfg w1 with
      | (Except.ok (p, t), w2) =>
        (GetOutcome.ok { s1 with pvcSize := p, cullerTimeout := t }, w2)
      | (Except.error _, w2) => (GetOutcome.ok s1, w2)

/-- Error type of the groups utility: the class `MissingGroupError`
extends `Error`, so callers can distinguish a missing group from a
generic failure. -/
inductive GroupError
  | missingGroup (message : String)
  | generic (message : String)
deriving DecidableEq, Repr

/-- Cluster custom objects of the groups API: name and member list. -/
abbrev GroupsEnv := List (String × List String)

/-- `customObjectsApi.getClusterCustomObject` on the groups resource:
404 when the named group does not exist. -/
def getClusterCustomObject (env : GroupsEnv) (name : String) :
    Except KubeErr (List String) :=
  match env.find? (fun g => g.1 == name) with
  | some g => Except.ok g.2
  | none => Except.error err404

/-- Source `getGroup`: return the user list of the named group; any
failure of the underlying call is wrapped in `MissingGroupError`. -/
def getGroup (env : GroupsEnv) (adminGroup : String) :
    Except GroupError (List String) :=
  match getClusterCustomObject env adminGroup with
  | Except.ok users => Except.ok users
  | Except.error _ =>
    Except.error (GroupError.missingGroup
      ("Failed to retrieve Group " ++ adminGroup ++ ", might not exist."))

/-! Observation predicates over traces, used to state frame and
rollout properties. -/

/-- Does the event write (patch, create or delete) the named object? -/
def isWriteTo (ev : TraceEv) (n : String) : Bool :=
  match ev with
  | .patchCall m _ => m == n
  | .createCall m _ => m == n
  | .deleteCall m => m == n
  | _ => false

/-- Is the event a patch call on the named object? -/
def isPatchTo (ev : TraceEv) (n : String) : Bool :=
  match ev with
  | .patchCall m _ => m == n
  | _ => false

/-- Was a patch issued to the named object anywhere in the trace? -/
def patchCallsTo (tr : List TraceEv) (n : String) : Bool :=
  tr.any (fun ev => isPatchTo ev n)

/-- Is the event a patch of the tracking ConfigMap whose body carries
the `segmentKeyEnabled` field? -/
def isSegmentFieldPatch (ev : TraceEv) : Bool :=
  match ev with
  | TraceEv.patchCall m d => m == segmentKeyCfg && d.any (fun kv => kv.1 == "segmentKeyEnabled")
  | _ => false

/-- Was a patch carrying the `segmentKeyEnabled` field issued to the
tracking ConfigMap anywhere in the trace? -/
def segmentFieldPatched (tr : List TraceEv) : Bool :=
  tr.any isSegmentFieldPatch

/-- Is the event an API read or a rollout request (never a write to a
ConfigMap)? -/
def isReadOrRollout (ev : TraceEv) : Bool :=
  match ev with
  | .readCall _ => true
  | .rolloutDeployment _ => true
  | .rolloutDeploymentConfig _ => true
  | _ => false

/-! Concrete inputs used by the counterexamples and witnesses. -/

/-- Query asking for the disabled-culling sentinel timeout, with the
tracking parameter at its no-change marker. -/
def qSentinel : Query := ⟨some "20", some "31536000", some "null"⟩

/-- Query asking for pvcSize 20 and cullerTimeout 3600 seconds, with
the tracking parameter at its no-change marker. -/
def qStandard : Query := ⟨some "20", some "3600", some "null"⟩

/-- Query with every parameter omitted. -/
def qOmitted : Query := ⟨none, none, none⟩

/-- Cluster with no ConfigMaps, no faults, empty trace. -/
def wEmpty : World := ⟨none, none, none, [], []⟩

/-- Culling ConfigMap recording culling as disabled with the string
`false`, idle time 60 minutes. -/
def cmCullingFalse : CMData := [("ENABLE_CULLING", "false"), ("CULL_IDLE_TIME", "60")]

/-- Cluster whose culling ConfigMap records `ENABLE_CULLING=false`. -/
def wCullingFalse : World := ⟨none, some cmCullingFalse, none, [], []⟩

/-- Legacy ConfigMap storing pvc size 20Gi and timeout 100 seconds. -/
def cmLegacy100 : CMData := [("singleuser_pvc_size", "20Gi"), ("culler_timeout", "100")]

/-- Legacy-mode cluster whose stored timeout 100 differs from the 3600
about to be requested while the size 20 matches. -/
def wLegacy100 : World := ⟨none, none, some cmLegacy100, [], []⟩

/-- A non-404 API error. -/
def err500 : KubeErr := ⟨some 500, some 500, "internal server error"⟩

/-- Legacy ConfigMap storing pvc size 10Gi and timeout 100 seconds. -/
def cmLegacyOld : CMData := [("singleuser_pvc_size", "10Gi"), ("culler_timeout", "100")]

/-- Legacy-mode cluster where patching the legacy ConfigMap fails
with HTTP 500. -/
def wPatchFault : World :=
  ⟨none, none, some cmLegacyOld, [(Verb.patch, jupyterhubCfg, err500)], []⟩

/-- Cluster where patching the tracking ConfigMap fails with HTTP
500. -/
def wTrackingFault : World :=
  ⟨some [], none, none, [(Verb.patch, segmentKeyCfg, err500)], []⟩

/-- Query that changes the tracking flag besides size and timeout. -/
def qTracking : Query := ⟨some "20", some "3600", some "true"⟩

end OdhDashboard

namespace OdhDashboard

/-! Helper lemmas about the association-list operations. -/

theorem getVal_setKey_self (m : CMData) (k v : String) :
    getVal (setKey m k v) k = some v := by
  unfold getVal setKey
  rw [List.find?_cons_of_pos _ (by simp)]
  rfl

theorem find?_filter_of_ne (m : CMData) (k k' : String) (h : k' ≠ k) :
    (m.filter (fun kv => !(kv.1 == k))).find? (fun kv => kv.1 == k') =
      m.find? (fun kv => kv.1 == k') := by
  induction m with
  | nil => rfl
  | cons a rest ih =>
    by_cases ha : a.1 = k
    · have h1 : (a.1 == k) = true := by simp [ha]
      have h2 : (a.1 == k') = false := by
        simp [beq_eq_false_iff_ne]
        exact fun hh => h (ha ▸ hh).symm
      simp [List.filter_cons, h1, List.find?_cons, h2, ih]
    · have h1 : (a.1 == k) = false := by simp [beq_eq_false_iff_ne, ha]
      by_cases ha' : a.1 = k'
      · have h2 : (a.1 == k') = true := by simp [ha']
        simp [List.filter_cons, h1, List.find?_cons, h2]
      · have h2 : (a.1 == k') = false := by simp [beq_eq_false_iff_ne, ha']
        simp [List.filter_cons, h1, List.find?_cons, h2, ih]

theorem getVal_setKey_ne (m : CMData) (k v k' : String) (h : k' ≠ k) :
    getVal (setKey m k v) k' = getVal m k' := by
  unfold getVal setKey
  rw [List.find?_cons_of_neg _ (by simp [beq_eq_false_iff_ne]; exact fun hh => h hh.symm)]
  rw [find?_filter_of_ne m k k' h]

/-! Projection lemmas: traces and fault tables through the API
primitives. -/

@[simp] theorem findFault_addTrace (w : World) (ev : TraceEv) (v : Verb) (n : String) :
    findFault (addTrace w ev) v n = findFault w v n := rfl

@[simp] theorem getCM_addTrace (w : World) (ev : TraceEv) (n : String) :
    getCM (addTrace w ev) n = getCM w n := rfl

@[simp] theorem readErr_addTrace (w : World) (ev : TraceEv) (n : String) :
    readErr (addTrace w ev) n = readErr w n := rfl

theorem trace_setCM (w : World) (n : String) (d : Option CMData) :
    (setCM w n d).trace = w.trace := by
  unfold setCM
  split
  · rfl
  · split
    · rfl
    · split
      · rfl
      · rfl

theorem trace_addTrace (w : World) (ev : TraceEv) :
    (addTrace w ev).trace = w.trace ++ [ev] := rfl

theorem trace_read (w : World) (n : String) :
    ((readNamespacedConfigMap w n).2).trace = w.trace ++ [TraceEv.readCall n] := by
  unfold readNamespacedConfigMap
  cases hf : findFault w Verb.read n <;> cases hg : getCM w n <;> simp [hf, hg, trace_addTrace]

theorem trace_patch (w : World) (n : String) (p : CMData) :
    ((patchNamespacedConfigMap w n p).2).trace = w.trace ++ [TraceEv.patchCall n p] := by
  unfold patchNamespacedConfigMap
  cases hf : findFault w Verb.patch n <;> cases hg : getCM w n <;>
    simp [hf, hg, trace_setCM, trace_addTrace]

theorem trace_create (w : World) (n : String) (d : CMData) :
    ((createNamespacedConfigMap w n d).2).trace = w.trace ++ [TraceEv.createCall n d] := by
  unfold createNamespacedConfigMap
  cases hf : findFault w Verb.create n <;> cases hg : getCM w n <;>
    simp [hf, hg, trace_setCM, trace_addTrace]

theorem trace_delete (w : World) (n : String) :
    ((deleteNamespacedConfigMap w n).2).trace = w.trace ++ [TraceEv.deleteCall n] := by
  unfold deleteNamespacedConfigMap
  cases hf : findFault w Verb.delete n <;> cases hg : getCM w n <;>
    simp [hf, hg, trace_setCM, trace_addTrace]

theorem nbcCM_setCM_seg (w : World) (d : Option CMData) :
    (setCM w segmentKeyCfg d).nbcCM = w.nbcCM := rfl

theorem jhCM_setCM_seg (w : World) (d : Option CMData) :
    (setCM w segmentKeyCfg d).jupyterhubCM = w.jupyterhubCM := rfl

/-! Step lemmas: each phase of the update only acts on its own
ConfigMap, visible both in the trace delta and in the state. -/

theorem trackingStep_nbcCM (w : World) (q : Query) :
    ((trackingStep w q).2).nbcCM = w.nbcCM := by
  unfold trackingStep patchCM patchNamespacedConfigMap
  split
  · rfl
  · cases hf : findFault w Verb.patch segmentKeyCfg <;>
    cases hg : getCM w segmentKeyCfg <;>
      simp [hf, hg, nbcCM_setCM_seg, addTrace]

theorem trackingStep_jhCM (w : World) (q : Query) :
    ((trackingStep w q).2).jupyterhubCM = w.jupyterhubCM := by
  unfold trackingStep patchCM patchNamespacedConfigMap
  split
  · rfl
  · cases hf : findFault w Verb.patch segmentKeyCfg <;>
    cases hg : getCM w segmentKeyCfg <;>
      simp [hf, hg, jhCM_setCM_seg, addTrace]

theorem trackingStep_trace (w : World) (q : Query) :
    (q.userTrackingEnabled = some "null" ∧ ((trackingStep w q).2).trace = w.trace) ∨
    (q.userTrackingEnabled ≠ some "null" ∧ ((trackingStep w q).2).trace =
      w.trace ++ [TraceEv.patchCall segmentKeyCfg
        (match q.userTrackingEnabled with
         | some s => [("segmentKeyEnabled", s)]
         | none => [])]) := by
  by_cases hn : q.userTrackingEnabled = some "null"
  · left
    refine ⟨hn, ?_⟩
    unfold trackingStep
    rw [if_pos (by simp [hn])]
  · right
    refine ⟨hn, ?_⟩
    unfold trackingStep
    rw [if_neg (by simp [hn])]
    rcases hp : patchCM w segmentKeyCfg
        (match q.userTrackingEnabled with
         | some s => [("segmentKeyEnabled", s)]
         | none => []) with ⟨r, w1⟩
    have ht : w1.trace = w.trace ++ [TraceEv.patchCall segmentKeyCfg
        (match q.userTrackingEnabled with
         | some s => [("segmentKeyEnabled", s)]
         | none => [])] := by
      have := trace_patch w segmentKeyCfg
        (match q.userTrackingEnabled with
         | some s => [("segmentKeyEnabled", s)]
         | none => [])
      rw [show patchNamespacedConfigMap w segmentKeyCfg
        (match q.userTrackingEnabled with
         | some s => [("segmentKeyEnabled", s)]
         | none => []) = patchCM w segmentKeyCfg
        (match q.userTrackingEnabled with
         | some s => [("segmentKeyEnabled", s)]
         | none => []) from rfl, hp] at this
      exact this
    cases r <;> simpa using ht

theorem trace_two (w w1 w2 : World) (a b : TraceEv)
    (h1 : w1.trace = w.trace ++ [a]) (h2 : w2.trace = w1.trace ++ [b]) :
    w2.trace = w.trace ++ [a, b] := by
  rw [h2, h1, List.append_assoc]
  rfl

theorem trace_patchCM (w : World) (n : String) (p : CMData) :
    ((patchCM w n p).2).trace = w.trace ++ [TraceEv.patchCall n p] :=
  trace_patch w n p

theorem nbcWriteStep_trace (w : World) (q : Query) :
    ∃ δ, ((nbcWriteStep w q).2).trace = w.trace ++ δ ∧
      δ.all (fun ev => isWriteTo ev nbcCfg) = true := by
  unfold nbcWriteStep
  by_cases hEn : jsNumberOpt q.cullerTimeout = some DEFAULT_CULLER_TIMEOUT
  · rcases hd : deleteNamespacedConfigMap w nbcCfg with ⟨r, w1⟩
    have ht := trace_delete w nbcCfg
    rw [hd] at ht
    cases r <;> simp only [hEn, beq_self_eq_true, Bool.not_true, Bool.not_false, if_true, hd] <;>
      exact ⟨_, by simpa using ht, by simp [isWriteTo]⟩
  · have hb : (jsNumberOpt q.cullerTimeout == some DEFAULT_CULLER_TIMEOUT) = false :=
      beq_eq_false_iff_ne.mpr hEn
    simp only [hb, Bool.not_false, Bool.not_true, if_false]
    rcases hp : patchCM w nbcCfg
        [("ENABLE_CULLING", jsStringBool true),
         ("CULL_IDLE_TIME", jsStringDiv60OfNum (jsNumberOpt q.cullerTimeout))] with ⟨r, w1⟩
    have ht := trace_patchCM w nbcCfg
        [("ENABLE_CULLING", jsStringBool true),
         ("CULL_IDLE_TIME", jsStringDiv60OfNum (jsNumberOpt q.cullerTimeout))]
    rw [hp] at ht
    cases r with
    | ok a =>
      simp only [hp]
      exact ⟨_, by simpa using ht, by simp [isWriteTo]⟩
    | error e =>
      simp only [hp]
      by_cases h404 : e.statusCode = some 404
      · simp only [h404, beq_self_eq_true, if_true]
        rcases hc : createNamespacedConfigMap w1 nbcCfg
            [("ENABLE_CULLING", jsStringBool true),
             ("CULL_IDLE_TIME", jsStringDiv60OfNum (jsNumberOpt q.cullerTimeout)),
             ("IDLENESS_CHECK_PERIOD", DEFAULT_IDLENESS_CHECK_PERIOD)] with ⟨r2, w2⟩
        have ht2 := trace_create w1 nbcCfg
            [("ENABLE_CULLING", jsStringBool true),
             ("CULL_IDLE_TIME", jsStringDiv60OfNum (jsNumberOpt q.cullerTimeout)),
             ("IDLENESS_CHECK_PERIOD", DEFAULT_IDLENESS_CHECK_PERIOD)]
        rw [hc] at ht2
        cases r2 <;> simp only [hc] <;>
          exact ⟨[TraceEv.patchCall nbcCfg
              [("ENABLE_CULLING", jsStringBool true),
               ("CULL_IDLE_TIME", jsStringDiv60OfNum (jsNumberOpt q.cullerTimeout))],
            TraceEv.createCall nbcCfg
              [("ENABLE_CULLING", jsStringBool true),
               ("CULL_IDLE_TIME", jsStringDiv60OfNum (jsNumberOpt q.cullerTimeout)),
               ("IDLENESS_CHECK_PERIOD", DEFAULT_IDLENESS_CHECK_PERIOD)]],
            trace_two _ _ _ _ _ ht ht2, by simp [isWriteTo]⟩
      · have hb404 : (e.statusCode == some 404) = false := beq_eq_false_iff_ne.mpr h404
        simp only [hb404, if_false, Bool.false_eq_true]
        exact ⟨_, by simpa using ht, by simp [isWriteTo]⟩

theorem legacyWriteStep_trace (w : World) (q : Query) :
    ∃ δ, (legacyWriteStep w q).trace = w.trace ++ δ ∧
      δ.all (fun ev => isWriteTo ev jupyterhubCfg) = true := by
  unfold legacyWriteStep
  cases hp : q.pvcSize with
  | none => exact ⟨[], by simp, rfl⟩
  | some p =>
    cases hct : q.cullerTimeout with
    | none => exact ⟨[], by simp, rfl⟩
    | some t =>
      simp only [hp, hct]
      exact ⟨[TraceEv.patchCall jupyterhubCfg
        [("singleuser_pvc_size", p ++ "Gi"), ("culler_timeout", t)]],
        trace_patchCM w jupyterhubCfg _, by simp [isWriteTo]⟩

theorem trace_three (w w1 w2 w3 : World) (a b c : TraceEv)
    (h1 : w1.trace = w.trace ++ [a]) (h2 : w2.trace = w1.trace ++ [b])
    (h3 : w3.trace = w2.trace ++ [c]) :
    w3.trace = w.trace ++ [a, b, c] := by
  rw [h3, h2, h1, List.append_assoc, List.append_assoc]
  rfl

theorem rolloutStep_trace (w : World) (b : Bool) (q : Query) :
    ∃ δ, ((rolloutStep w b q).2).trace = w.trace ++ δ ∧
      δ.all isReadOrRollout = true := by
  cases b with
  | true =>
    exact ⟨[TraceEv.rolloutDeployment "notebook-controller-deployment"], rfl, rfl⟩
  | false =>
    unfold rolloutStep
    rcases hr : readNamespacedConfigMap w jupyterhubCfg with ⟨r, w1⟩
    have ht := trace_read w jupyterhubCfg
    rw [hr] at ht
    have ht1 : w1.trace = w.trace ++ [TraceEv.readCall jupyterhubCfg] := ht
    cases r with
    | error e =>
      simp only [hr]
      exact ⟨[TraceEv.readCall jupyterhubCfg], ht1, rfl⟩
    | ok d =>
      simp only [hr]
      cases hv : getVal d "singleuser_pvc_size" with
      | none => exact ⟨[TraceEv.readCall jupyterhubCfg], ht1, rfl⟩
      | some pvcStr =>
        cases h1 : (some (replaceFirst pvcStr "Gi") == q.pvcSize) <;>
        cases h2 : (getVal d "culler_timeout" == q.cullerTimeout) <;>
          simp only [h1, h2, Bool.not_true, Bool.not_false, if_true, if_false,
            Bool.false_eq_true, if_neg, ite_false, ite_true]
        · exact ⟨[TraceEv.readCall jupyterhubCfg,
            TraceEv.rolloutDeploymentConfig "jupyterhub",
            TraceEv.rolloutDeploymentConfig "jupyterhub-idle-culler"],
            trace_three _ _ _ _ _ _ _ ht1 rfl rfl, rfl⟩
        · exact ⟨[TraceEv.readCall jupyterhubCfg,
            TraceEv.rolloutDeploymentConfig "jupyterhub"],
            trace_two _ _ _ _ _ ht1 rfl, rfl⟩
        · exact ⟨[TraceEv.readCall jupyterhubCfg,
            TraceEv.rolloutDeploymentConfig "jupyterhub-idle-culler"],
            trace_two _ _ _ _ _ ht1 rfl, rfl⟩
        · exact ⟨[TraceEv.readCall jupyterhubCfg], ht1, rfl⟩

theorem read_nbcCM (w : World) (n : String) :
    ((readNamespacedConfigMap w n).2).nbcCM = w.nbcCM := by
  unfold readNamespacedConfigMap
  cases hf : findFault w Verb.read n <;> cases hg : getCM w n <;> simp [hf, hg, addTrace]

theorem read_jhCM (w : World) (n : String) :
    ((readNamespacedConfigMap w n).2).jupyterhubCM = w.jupyterhubCM := by
  unfold readNamespacedConfigMap
  cases hf : findFault w Verb.read n <;> cases hg : getCM w n <;> simp [hf, hg, addTrace]

theorem rolloutStep_nbcCM (w : World) (b : Bool) (q : Query) :
    ((rolloutStep w b q).2).nbcCM = w.nbcCM := by
  cases b with
  | true => rfl
  | false =>
    unfold rolloutStep
    rcases hr : readNamespacedConfigMap w jupyterhubCfg with ⟨r, w1⟩
    have hcm : w1.nbcCM = w.nbcCM := by
      have := read_nbcCM w jupyterhubCfg
      rw [hr] at this
      exact this
    cases r with
    | error e => simp only [hr]; exact hcm
    | ok d =>
      simp only [hr]
      cases hv : getVal d "singleuser_pvc_size" with
      | none => exact hcm
      | some pvcStr =>
        cases h1 : (some (replaceFirst pvcStr "Gi") == q.pvcSize) <;>
        cases h2 : (getVal d "culler_timeout" == q.cullerTimeout) <;>
          simp [h1, h2, rolloutDeploymentConfig, addTrace, hcm]

theorem rolloutStep_jhCM (w : World) (b : Bool) (q : Query) :
    ((rolloutStep w b q).2).jupyterhubCM = w.jupyterhubCM := by
  cases b with
  | true => rfl
  | false =>
    unfold rolloutStep
    rcases hr : readNamespacedConfigMap w jupyterhubCfg with ⟨r, w1⟩
    have hcm : w1.jupyterhubCM = w.jupyterhubCM := by
      have := read_jhCM w jupyterhubCfg
      rw [hr] at this
      exact this
    cases r with
    | error e => simp only [hr]; exact hcm
    | ok d =>
      simp only [hr]
      cases hv : getVal d "singleuser_pvc_size" with
      | none => exact hcm
      | some pvcStr =>
        cases h1 : (some (replaceFirst pvcStr "Gi") == q.pvcSize) <;>
        cases h2 : (getVal d "culler_timeout" == q.cullerTimeout) <;>
          simp [h1, h2, rolloutDeploymentConfig, addTrace, hcm]

/-- Claim C1, counterexample.  In notebook-controller mode with the
sentinel timeout and the culling ConfigMap already absent, the delete
raises a 404 that the catch block swallows without returning: the
call resolves to `undefined` instead of `{success: true}` and the
controller deployment is never rolled out, so the absent-before case
does not succeed as claimed. -/
theorem c1_counterexample :
    (updateClusterSettings wEmpty true qSentinel).1 = UpdateOutcome.undefinedResult ∧
    TraceEv.rolloutDeployment "notebook-controller-deployment" ∉
      (updateClusterSettings wEmpty true qSentinel).2.trace := by
  decide

/-- Claim C1, amended.  With the sentinel timeout in
notebook-controller mode and no injected faults: when the culling
ConfigMap exists beforehand, the call returns `{success: true}`, the
ConfigMap is deleted and the controller deployment is rolled out;
when it is already absent, the delete raises a 404 which the catch
block swallows, the call resolves to `undefined`, no rollout happens,
and the ConfigMap stays absent. -/
theorem c1_theorem : ∀ (seg jh : Option CMData) (d : CMData),
    ((updateClusterSettings ⟨seg, some d, jh, [], []⟩ true qSentinel).1 =
        UpdateOutcome.result true none ∧
      (updateClusterSettings ⟨seg, some d, jh, [], []⟩ true qSentinel).2.nbcCM = none ∧
      (updateClusterSettings ⟨seg, some d, jh, [], []⟩ true qSentinel).2.trace =
        [TraceEv.deleteCall nbcCfg,
         TraceEv.rolloutDeployment "notebook-controller-deployment"]) ∧
    ((updateClusterSettings ⟨seg, none, jh, [], []⟩ true qSentinel).1 =
        UpdateOutcome.undefinedResult ∧
      (updateClusterSettings ⟨seg, none, jh, [], []⟩ true qSentinel).2.nbcCM = none ∧
      (updateClusterSettings ⟨seg, none, jh, [], []⟩ true qSentinel).2.trace =
        [TraceEv.deleteCall nbcCfg]) :=
  fun _ _ _ => ⟨⟨rfl, rfl, rfl⟩, rfl, rfl, rfl⟩

/-- Claim C2, code bug.  A failed write of the requested change is
not surfaced as `{success: false, error}`: the legacy patch is issued
without `await`, so its rejection is lost and the call still returns
`{success: true}` with the ConfigMap unchanged; and when a write
error is caught (here on the awaited tracking patch), the catch block
itself throws a TypeError from the misspelled `e.respose.body.message`
before reaching the `{success: false}` return. -/
theorem c2_theorem :
    ((updateClusterSettings wPatchFault false qStandard).1 = UpdateOutcome.result true none ∧
      (updateClusterSettings wPatchFault false qStandard).2.jupyterhubCM = some cmLegacyOld) ∧
    (updateClusterSettings wTrackingFault false qTracking).1 =
      UpdateOutcome.thrown "TypeError: cannot read properties of undefined (reading body)" := by
  decide

/-- Claim C3, counterexample.  A culling ConfigMap that records
culling as disabled with `ENABLE_CULLING=false` does not keep the
sentinel: `Boolean` of the non-empty string `false` is true, so the
minutes value 60 is converted and `cullerTimeout` comes back as 3600,
not 31536000. -/
theorem c3_counterexample :
    (getClusterSettings wCullingFalse true).1 =
      GetOutcome.ok ⟨some 20, some 3600, none⟩ ∧ (3600 : Nat) ≠ DEFAULT_CULLER_TIMEOUT := by
  decide

/-- Claim C4, counterexample.  In legacy mode with the stored timeout
(100) differing from the requested one (3600) and the size unchanged,
no culler rollout is triggered: the ConfigMap is re-read after the
patch, so the value read back already equals the request and both
diff checks find equality.  The call still reports success. -/
theorem c4_counterexample :
    (updateClusterSettings wLegacy100 false qStandard).1 = UpdateOutcome.result true none ∧
    TraceEv.rolloutDeploymentConfig "jupyterhub-idle-culler" ∉
      (updateClusterSettings wLegacy100 false qStandard).2.trace := by
  decide

/-- Claim C4, amended.  In legacy mode with no injected faults,
whatever timeout was stored before, a write of pvcSize 20 and
cullerTimeout 3600 triggers no rollout at all: the post-patch re-read
equals the requested values, so neither the culler rollout nor the
main deployment rollout fires (the trace holds exactly the patch and
the read-back). -/
theorem c4_theorem : ∀ (seg nbcCM : Option CMData) (t0 : String),
    (updateClusterSettings
        ⟨seg, nbcCM, some [("singleuser_pvc_size", "20Gi"), ("culler_timeout", t0)], [], []⟩
        false qStandard).1 = UpdateOutcome.result true none ∧
    (updateClusterSettings
        ⟨seg, nbcCM, some [("singleuser_pvc_size", "20Gi"), ("culler_timeout", t0)], [], []⟩
        false qStandard).2.trace =
      [TraceEv.patchCall jupyterhubCfg
         [("singleuser_pvc_size", "20Gi"), ("culler_timeout", "3600")],
       TraceEv.readCall jupyterhubCfg] :=
  fun _ _ _ => ⟨rfl, rfl⟩

/-- Claim C5, counterexample.  When the `userTrackingEnabled`
parameter is omitted, the tracking ConfigMap is still written to: the
`!==` comparison also passes for `undefined`, so a patch call (whose
serialized body carries no field) is issued; here it 404s because the
ConfigMap is absent and the whole update resolves to `undefined`. -/
theorem c5_counterexample :
    (updateClusterSettings wEmpty false qOmitted).2.trace =
      [TraceEv.patchCall segmentKeyCfg []] ∧
    (updateClusterSettings wEmpty false qOmitted).1 = UpdateOutcome.undefinedResult := by
  decide

/-- Claim C3, amended.  In notebook-controller mode with the culling
ConfigMap present and no injected faults, the minutes value is
converted to seconds whenever `ENABLE_CULLING` holds any non-empty
string — JS truthiness, so the string `false` also counts as enabled
— and the disabled default sentinel is kept only when the key is
absent or empty. -/
theorem c3_theorem : ∀ (seg jh : Option CMData) (tr : List TraceEv) (d : CMData),
    ∃ s, (getClusterSettings ⟨seg, some d, jh, [], tr⟩ true).1 = GetOutcome.ok s ∧
      (jsTruthyStr (getVal d "ENABLE_CULLING") = true →
        s.cullerTimeout = jsMul60 (jsNumberOpt (getVal d "CULL_IDLE_TIME"))) ∧
      (jsTruthyStr (getVal d "ENABLE_CULLING") = false →
        s.cullerTimeout = some DEFAULT_CULLER_TIMEOUT) := by
  intro seg jh tr d
  rcases hseg : seg with _ | dseg <;>
  rcases hen : jsTruthyStr (getVal d "ENABLE_CULLING") with _ | _
  case none.false =>
    refine ⟨⟨some 20, some DEFAULT_CULLER_TIMEOUT, none⟩, ?_, by simp [hen], fun _ => rfl⟩
    unfold getClusterSettings
    have hsr : readNamespacedConfigMap ⟨none, some d, jh, [], tr⟩ segmentKeyCfg =
        (Except.error err404,
          ⟨none, some d, jh, [], tr ++ [TraceEv.readCall segmentKeyCfg]⟩) := rfl
    have hnr : readNamespacedConfigMap
        ⟨none, some d, jh, [], tr ++ [TraceEv.readCall segmentKeyCfg]⟩ nbcCfg =
        (Except.ok d,
          ⟨none, some d, jh, [],
            (tr ++ [TraceEv.readCall segmentKeyCfg]) ++ [TraceEv.readCall nbcCfg]⟩) := rfl
    simp only [hsr, hnr, hen]
    rfl
  case none.true =>
    refine ⟨⟨some 20, jsMul60 (jsNumberOpt (getVal d "CULL_IDLE_TIME")), none⟩,
      ?_, fun _ => rfl, by simp [hen]⟩
    unfold getClusterSettings
    have hsr : readNamespacedConfigMap ⟨none, some d, jh, [], tr⟩ segmentKeyCfg =
        (Except.error err404,
          ⟨none, some d, jh, [], tr ++ [TraceEv.readCall segmentKeyCfg]⟩) := rfl
    have hnr : readNamespacedConfigMap
        ⟨none, some d, jh, [], tr ++ [TraceEv.readCall segmentKeyCfg]⟩ nbcCfg =
        (Except.ok d,
          ⟨none, some d, jh, [],
            (tr ++ [TraceEv.readCall segmentKeyCfg]) ++ [TraceEv.readCall nbcCfg]⟩) := rfl
    simp only [hsr, hnr, hen]
    rfl
  case some.false =>
    refine ⟨⟨some 20, some DEFAULT_CULLER_TIMEOUT,
      some (getVal dseg "segmentKeyEnabled" == some "true")⟩, ?_, by simp [hen], fun _ => rfl⟩
    unfold getClusterSettings
    have hsr : readNamespacedConfigMap ⟨some dseg, some d, jh, [], tr⟩ segmentKeyCfg =
        (Except.ok dseg,
          ⟨some dseg, some d, jh, [], tr ++ [TraceEv.readCall segmentKeyCfg]⟩) := rfl
    have hnr : readNamespacedConfigMap
        ⟨some dseg, some d, jh, [], tr ++ [TraceEv.readCall segmentKeyCfg]⟩ nbcCfg =
        (Except.ok d,
          ⟨some dseg, some d, jh, [],
            (tr ++ [TraceEv.readCall segmentKeyCfg]) ++ [TraceEv.readCall nbcCfg]⟩) := rfl
    simp only [hsr, hnr, hen]
    rfl
  case some.true =>
    refine ⟨⟨some 20, jsMul60 (jsNumberOpt (getVal d "CULL_IDLE_TIME")),
      some (getVal dseg "segmentKeyEnabled" == some "true")⟩, ?_, fun _ => rfl, by simp [hen]⟩
    unfold getClusterSettings
    have hsr : readNamespacedConfigMap ⟨some dseg, some d, jh, [], tr⟩ segmentKeyCfg =
        (Except.ok dseg,
          ⟨some dseg, some d, jh, [], tr ++ [TraceEv.readCall segmentKeyCfg]⟩) := rfl
    have hnr : readNamespacedConfigMap
        ⟨some dseg, some d, jh, [], tr ++ [TraceEv.readCall segmentKeyCfg]⟩ nbcCfg =
        (Except.ok d,
          ⟨some dseg, some d, jh, [],
            (tr ++ [TraceEv.readCall segmentKeyCfg]) ++ [TraceEv.readCall nbcCfg]⟩) := rfl
    simp only [hsr, hnr, hen]
    rfl

/-- Claim C6, counterexample.  The claim fails without a proviso on
the tracking parameter: with `userTrackingEnabled=true` and no
tracking ConfigMap, the awaited tracking patch 404s, the top-level
catch swallows it and the update resolves to `undefined` without
creating the culling ConfigMap, although the request carried a
non-sentinel cullerTimeout in notebook-controller mode with no
culling ConfigMap present. -/
theorem c6_counterexample :
    (updateClusterSettings wEmpty true qTracking).1 = UpdateOutcome.undefinedResult ∧
    (updateClusterSettings wEmpty true qTracking).2.nbcCM = none := by
  decide

/-- Helper: in notebook-controller mode with the culling ConfigMap
absent and no faults, the write step patches (404), then creates the
ConfigMap with the enabled flag, the stringified quotient, and the
default idleness-check period. -/
theorem nbcWriteStep_create (seg jh : Option CMData) (tr : List TraceEv) (ut : Option String)
    (s : String) (t : Nat) (h : digitsToNat s.data = some t)
    (hne : t ≠ DEFAULT_CULLER_TIMEOUT) :
    nbcWriteStep ⟨seg, none, jh, [], tr⟩ ⟨some "20", some s, ut⟩ =
      (Except.ok (),
        ⟨seg, some [("ENABLE_CULLING", "true"), ("CULL_IDLE_TIME", jsStringOfDiv60 t),
                    ("IDLENESS_CHECK_PERIOD", "1")], jh, [],
          (tr ++ [TraceEv.patchCall nbcCfg
             [("ENABLE_CULLING", "true"), ("CULL_IDLE_TIME", jsStringOfDiv60 t)]]) ++
           [TraceEv.createCall nbcCfg
             [("ENABLE_CULLING", "true"), ("CULL_IDLE_TIME", jsStringOfDiv60 t),
              ("IDLENESS_CHECK_PERIOD", "1")]]⟩) := by
  have hnum : jsNumberOpt (some s) = some t := by
    simp [jsNumberOpt, jsNumber, h]
  have hbeq : (some t == some DEFAULT_CULLER_TIMEOUT) = false := by
    simp [hne]
  unfold nbcWriteStep
  simp only [hnum, hbeq, Bool.not_false, Bool.not_true, if_false, if_true]
  rfl

/-- Helper: on whole minutes the stored string is the plain decimal
numeral of the quotient. -/
theorem jsStringOfDiv60_whole (t : Nat) (h : 60 ∣ t) :
    jsStringOfDiv60 t = toString (t / 60) := by
  obtain ⟨k, rfl⟩ := h
  have h3 : (60 * k) % 3 = 0 := by omega
  have h5 : 60 * k / 3 * 5 = 100 * k := by omega
  have h100 : (100 * k) % 100 = 0 := by omega
  have hq : 100 * k / 100 = k := by omega
  have hq60 : 60 * k / 60 = k := by omega
  unfold jsStringOfDiv60 decHundredths
  simp [h3, h5, h100, hq, hq60]

/-- Claim C6, amended.  In notebook-controller mode with no culling
ConfigMap, no injected faults, and a non-sentinel cullerTimeout,
provided the tracking step cannot abort the request first (the
parameter is the no-change marker `null`, or the tracking ConfigMap
exists so its patch succeeds), the culling patch 404s and a new
ConfigMap is created with `ENABLE_CULLING=true`,
`IDLENESS_CHECK_PERIOD=1`, and `CULL_IDLE_TIME` the JS string of
cullerTimeout/60 — the whole-minute numeral when 60 divides the
timeout, the exact at-most-two-decimal numeral when 3 does (90
stores `1.5`), and otherwise the float's decimal approximation,
whose digits are floating-point behaviour outside this integer
model; the call reports success. -/
theorem c6_theorem : ∀ (seg jh : Option CMData) (ut : Option String) (s : String) (t : Nat),
    digitsToNat s.data = some t → s ≠ "" → t ≠ DEFAULT_CULLER_TIMEOUT →
    (ut = some "null" ∨ ∃ dseg, seg = some dseg) →
    (updateClusterSettings ⟨seg, none, jh, [], []⟩ true ⟨some "20", some s, ut⟩).1 =
      UpdateOutcome.result true none ∧
    (updateClusterSettings ⟨seg, none, jh, [], []⟩ true ⟨some "20", some s, ut⟩).2.nbcCM =
      some [("ENABLE_CULLING", "true"), ("CULL_IDLE_TIME", jsStringOfDiv60 t),
            ("IDLENESS_CHECK_PERIOD", "1")] ∧
    (60 ∣ t → jsStringOfDiv60 t = toString (t / 60)) := by
  intro seg jh ut s t h hs hne hcase
  have h20 : (jsTruthyStr (some "20") && jsTruthyStr (some s)) = true := by
    simp [jsTruthyStr, hs]
  rcases hcase with hut | ⟨dseg, rfl⟩
  · subst hut
    have e1 : trackingStep ⟨seg, none, jh, [], []⟩ ⟨some "20", some s, some "null"⟩ =
        (Except.ok (), ⟨seg, none, jh, [], []⟩) := rfl
    have hw := nbcWriteStep_create seg jh [] (some "null") s t h hne
    unfold updateClusterSettings
    simp only [e1, h20, hw, if_true]
    exact ⟨rfl, rfl, jsStringOfDiv60_whole t⟩
  · cases hbeq : (ut == some "null") with
    | true =>
      have hut : ut = some "null" := eq_of_beq hbeq
      subst hut
      have e1 : trackingStep ⟨some dseg, none, jh, [], []⟩
          ⟨some "20", some s, some "null"⟩ =
          (Except.ok (), ⟨some dseg, none, jh, [], []⟩) := rfl
      have hw := nbcWriteStep_create (some dseg) jh [] (some "null") s t h hne
      unfold updateClusterSettings
      simp only [e1, h20, hw, if_true]
      exact ⟨rfl, rfl, jsStringOfDiv60_whole t⟩
    | false =>
      cases ut with
      | none =>
        have e1 : trackingStep ⟨some dseg, none, jh, [], []⟩ ⟨some "20", some s, none⟩ =
            (Except.ok (), ⟨some (mergeData dseg []), none, jh, [],
              [TraceEv.patchCall segmentKeyCfg []]⟩) := rfl
        have hw := nbcWriteStep_create (some (mergeData dseg [])) jh
          [TraceEv.patchCall segmentKeyCfg []] none s t h hne
        unfold updateClusterSettings
        simp only [e1, h20, hw, if_true]
        exact ⟨rfl, rfl, jsStringOfDiv60_whole t⟩
      | some v =>
        have e1 : trackingStep ⟨some dseg, none, jh, [], []⟩ ⟨some "20", some s, some v⟩ =
            (Except.ok (), ⟨some (mergeData dseg [("segmentKeyEnabled", v)]), none, jh, [],
              [TraceEv.patchCall segmentKeyCfg [("segmentKeyEnabled", v)]]⟩) := by
          unfold trackingStep
          rw [if_neg (by simp [hbeq])]
          rfl
        have hw := nbcWriteStep_create (some (mergeData dseg [("segmentKeyEnabled", v)])) jh
          [TraceEv.patchCall segmentKeyCfg [("segmentKeyEnabled", v)]] (some v) s t h hne
        unfold updateClusterSettings
        simp only [e1, h20, hw, if_true]
        exact ⟨rfl, rfl, jsStringOfDiv60_whole t⟩

/-- Claim C6, witness: the whole-minute timeout 3600 stores the
numeral 60, and the fractional timeout 90 stores the exact decimal
1.5, both on an empty cluster with the tracking marker at `null`. -/
theorem c6_witness :
    ((updateClusterSettings ⟨none, none, none, [], []⟩ true
        ⟨some "20", some "3600", some "null"⟩).1 = UpdateOutcome.result true none ∧
      (updateClusterSettings ⟨none, none, none, [], []⟩ true
        ⟨some "20", some "3600", some "null"⟩).2.nbcCM =
        some [("ENABLE_CULLING", "true"), ("CULL_IDLE_TIME", "60"),
              ("IDLENESS_CHECK_PERIOD", "1")]) ∧
    (updateClusterSettings ⟨none, none, none, [], []⟩ true
        ⟨some "20", some "90", some "null"⟩).2.nbcCM =
      some [("ENABLE_CULLING", "true"), ("CULL_IDLE_TIME", "1.5"),
            ("IDLENESS_CHECK_PERIOD", "1")] :=
  ⟨⟨(c6_theorem none none (some "null") "3600" 3600 (by decide) (by decide) (by decide)
        (Or.inl rfl)).1,
    (c6_theorem none none (some "null") "3600" 3600 (by decide) (by decide) (by decide)
        (Or.inl rfl)).2.1⟩,
    (c6_theorem none none (some "null") "90" 90 (by decide) (by decide) (by decide)
        (Or.inl rfl)).2.1⟩

/-- Claim C7, confirmed.  Round-trip in legacy mode with no injected
faults: after writing pvcSize 20 and cullerTimeout 3600 (stored as
`20Gi` and `3600` in the legacy ConfigMap, whatever it held before),
the read endpoint returns pvcSize 20 and cullerTimeout 3600. -/
theorem c7_theorem : ∀ (seg nbcCM : Option CMData) (d : CMData) (tr : List TraceEv),
    ∃ s, (getClusterSettings
        (updateClusterSettings ⟨seg, nbcCM, some d, [], tr⟩ false qStandard).2 false).1 =
      GetOutcome.ok s ∧ s.pvcSize = some 20 ∧ s.cullerTimeout = some 3600 := by
  intro seg nbcCM d tr
  have hpvc : getVal (mergeData d
      [("singleuser_pvc_size", "20Gi"), ("culler_timeout", "3600")]) "singleuser_pvc_size" =
      some "20Gi" := by
    simp only [mergeData, List.foldl]
    rw [getVal_setKey_ne _ _ _ _ (by decide)]
    exact getVal_setKey_self _ _ _
  have hct : getVal (mergeData d
      [("singleuser_pvc_size", "20Gi"), ("culler_timeout", "3600")]) "culler_timeout" =
      some "3600" := by
    simp only [mergeData, List.foldl]
    exact getVal_setKey_self _ _ _
  have hup : (updateClusterSettings ⟨seg, nbcCM, some d, [], tr⟩ false qStandard).2 =
      ⟨seg, nbcCM, some (mergeData d [("singleuser_pvc_size", "20Gi"), ("culler_timeout", "3600")]),
        [],
        ((tr ++ [TraceEv.patchCall jupyterhubCfg
            [("singleuser_pvc_size", "20Gi"), ("culler_timeout", "3600")]]) ++
          [TraceEv.readCall jupyterhubCfg])⟩ := by
    unfold updateClusterSettings
    have e1 : trackingStep ⟨seg, nbcCM, some d, [], tr⟩ qStandard =
        (Except.ok (), ⟨seg, nbcCM, some d, [], tr⟩) := rfl
    have hl : legacyWriteStep ⟨seg, nbcCM, some d, [], tr⟩ qStandard =
        ⟨seg, nbcCM,
          some (mergeData d [("singleuser_pvc_size", "20Gi"), ("culler_timeout", "3600")]), [],
          tr ++ [TraceEv.patchCall jupyterhubCfg
            [("singleuser_pvc_size", "20Gi"), ("culler_timeout", "3600")]]⟩ := rfl
    have hc : (jsTruthyStr qStandard.pvcSize && jsTruthyStr qStandard.cullerTimeout) = true := rfl
    simp only [e1, hc, hl, if_true]
    unfold rolloutStep
    have hread : readNamespacedConfigMap
        ⟨seg, nbcCM,
          some (mergeData d [("singleuser_pvc_size", "20Gi"), ("culler_timeout", "3600")]), [],
          tr ++ [TraceEv.patchCall jupyterhubCfg
            [("singleuser_pvc_size", "20Gi"), ("culler_timeout", "3600")]]⟩ jupyterhubCfg =
        (Except.ok (mergeData d [("singleuser_pvc_size", "20Gi"), ("culler_timeout", "3600")]),
          ⟨seg, nbcCM,
            some (mergeData d [("singleuser_pvc_size", "20Gi"), ("culler_timeout", "3600")]), [],
            (tr ++ [TraceEv.patchCall jupyterhubCfg
              [("singleuser_pvc_size", "20Gi"), ("culler_timeout", "3600")]]) ++
              [TraceEv.readCall jupyterhubCfg]⟩) := rfl
    simp only [hread, hpvc, hct]
    rfl
  rw [hup]
  rcases seg with _ | dseg
  · refine ⟨⟨some 20, some 3600, none⟩, ?_, rfl, rfl⟩
    unfold getClusterSettings
    have hsr : readNamespacedConfigMap
        ⟨none, nbcCM,
          some (mergeData d [("singleuser_pvc_size", "20Gi"), ("culler_timeout", "3600")]), [],
          ((tr ++ [TraceEv.patchCall jupyterhubCfg
              [("singleuser_pvc_size", "20Gi"), ("culler_timeout", "3600")]]) ++
            [TraceEv.readCall jupyterhubCfg])⟩ segmentKeyCfg =
        (Except.error err404,
          ⟨none, nbcCM,
            some (mergeData d [("singleuser_pvc_size", "20Gi"), ("culler_timeout", "3600")]), [],
            (((tr ++ [TraceEv.patchCall jupyterhubCfg
                [("singleuser_pvc_size", "20Gi"), ("culler_timeout", "3600")]]) ++
              [TraceEv.readCall jupyterhubCfg]) ++ [TraceEv.readCall segmentKeyCfg])⟩) := rfl
    simp only [hsr]
    unfold readJupyterhubCfg
    have hjr : readNamespacedConfigMap
        ⟨none, nbcCM,
          some (mergeData d [("singleuser_pvc_size", "20Gi"), ("culler_timeout", "3600")]), [],
          (((tr ++ [TraceEv.patchCall jupyterhubCfg
              [("singleuser_pvc_size", "20Gi"), ("culler_timeout", "3600")]]) ++
            [TraceEv.readCall jupyterhubCfg]) ++ [TraceEv.readCall segmentKeyCfg])⟩ jupyterhubCfg =
        (Except.ok (mergeData d [("singleuser_pvc_size", "20Gi"), ("culler_timeout", "3600")]),
          ⟨none, nbcCM,
            some (mergeData d [("singleuser_pvc_size", "20Gi"), ("culler_timeout", "3600")]), [],
            ((((tr ++ [TraceEv.patchCall jupyterhubCfg
                [("singleuser_pvc_size", "20Gi"), ("culler_timeout", "3600")]]) ++
              [TraceEv.readCall jupyterhubCfg]) ++ [TraceEv.readCall segmentKeyCfg]) ++
              [TraceEv.readCall jupyterhubCfg])⟩) := rfl
    simp only [hjr, hpvc, hct]
    rfl
  · refine ⟨⟨some 20, some 3600,
      some (getVal dseg "segmentKeyEnabled" == some "true")⟩, ?_, rfl, rfl⟩
    unfold getClusterSettings
    have hsr : readNamespacedConfigMap
        ⟨some dseg, nbcCM,
          some (mergeData d [("singleuser_pvc_size", "20Gi"), ("culler_timeout", "3600")]), [],
          ((tr ++ [TraceEv.patchCall jupyterhubCfg
              [("singleuser_pvc_size", "20Gi"), ("culler_timeout", "3600")]]) ++
            [TraceEv.readCall jupyterhubCfg])⟩ segmentKeyCfg =
        (Except.ok dseg,
          ⟨some dseg, nbcCM,
            some (mergeData d [("singleuser_pvc_size", "20Gi"), ("culler_timeout", "3600")]), [],
            (((tr ++ [TraceEv.patchCall jupyterhubCfg
                [("singleuser_pvc_size", "20Gi"), ("culler_timeout", "3600")]]) ++
              [TraceEv.readCall jupyterhubCfg]) ++ [TraceEv.readCall segmentKeyCfg])⟩) := rfl
    simp only [hsr]
    unfold readJupyterhubCfg
    have hjr : readNamespacedConfigMap
        ⟨some dseg, nbcCM,
          some (mergeData d [("singleuser_pvc_size", "20Gi"), ("culler_timeout", "3600")]), [],
          (((tr ++ [TraceEv.patchCall jupyterhubCfg
              [("singleuser_pvc_size", "20Gi"), ("culler_timeout", "3600")]]) ++
            [TraceEv.readCall jupyterhubCfg]) ++ [TraceEv.readCall segmentKeyCfg])⟩ jupyterhubCfg =
        (Except.ok (mergeData d [("singleuser_pvc_size", "20Gi"), ("culler_timeout", "3600")]),
          ⟨some dseg, nbcCM,
            some (mergeData d [("singleuser_pvc_size", "20Gi"), ("culler_timeout", "3600")]), [],
            ((((tr ++ [TraceEv.patchCall jupyterhubCfg
                [("singleuser_pvc_size", "20Gi"), ("culler_timeout", "3600")]]) ++
              [TraceEv.readCall jupyterhubCfg]) ++ [TraceEv.readCall segmentKeyCfg]) ++
              [TraceEv.readCall jupyterhubCfg])⟩) := rfl
    simp only [hjr, hpvc, hct]
    rfl

/-- Helper: an event that writes the culling or legacy ConfigMap, or
is a read or rollout, is neither a patch of the tracking ConfigMap
nor a patch carrying the tracking field. -/
theorem evNotSeg (ev : TraceEv)
    (h : isWriteTo ev nbcCfg = true ∨ isWriteTo ev jupyterhubCfg = true ∨
      isReadOrRollout ev = true) :
    isPatchTo ev segmentKeyCfg = false ∧ isSegmentFieldPatch ev = false := by
  cases ev with
  | patchCall m d =>
    rcases h with h | h | h
    · have hm : m = nbcCfg := by simpa [isWriteTo] using h
      subst hm
      exact ⟨rfl, rfl⟩
    · have hm : m = jupyterhubCfg := by simpa [isWriteTo] using h
      subst hm
      exact ⟨rfl, rfl⟩
    · simp [isReadOrRollout] at h
  | createCall m d => exact ⟨rfl, rfl⟩
  | deleteCall m => exact ⟨rfl, rfl⟩
  | readCall m => exact ⟨rfl, rfl⟩
  | rolloutDeployment m => exact ⟨rfl, rfl⟩
  | rolloutDeploymentConfig m => exact ⟨rfl, rfl⟩

/-- Claim C5, amended.  A patch of the tracking ConfigMap is issued
exactly when `userTrackingEnabled` differs from the literal string
`null` — so an omitted parameter still causes a write call, carrying
an empty body.  The `segmentKeyEnabled` field itself is sent exactly
when the parameter is provided and is not `null`. -/
theorem c5_theorem : ∀ (seg nb jh : Option CMData) (fts : List (Verb × String × KubeErr))
    (b : Bool) (q : Query),
    (patchCallsTo ((updateClusterSettings ⟨seg, nb, jh, fts, []⟩ b q).2).trace segmentKeyCfg = true
      ↔ q.userTrackingEnabled ≠ some "null") ∧
    (segmentFieldPatched ((updateClusterSettings ⟨seg, nb, jh, fts, []⟩ b q).2).trace = true
      ↔ ∃ s, q.userTrackingEnabled = some s ∧ s ≠ "null") := by
  intro seg nb jh fts b q
  rcases hts : trackingStep ⟨seg, nb, jh, fts, []⟩ q with ⟨r1, w1⟩
  have main : ∃ Δ, ((updateClusterSettings ⟨seg, nb, jh, fts, []⟩ b q).2).trace =
      w1.trace ++ Δ ∧
      ∀ ev ∈ Δ, isPatchTo ev segmentKeyCfg = false ∧ isSegmentFieldPatch ev = false := by
    unfold updateClusterSettings
    cases r1 with
    | error e =>
      simp only [hts]
      exact ⟨[], by simp, by simp⟩
    | ok a =>
      simp only [hts]
      cases hcond : (jsTruthyStr q.pvcSize && jsTruthyStr q.cullerTimeout) with
      | false =>
        rw [if_neg (show ¬((false : Bool) = true) from by simp)]
        rcases hrs : rolloutStep w1 b q with ⟨r2, w2⟩
        have hδ := rolloutStep_trace w1 b q
        rw [hrs] at hδ
        rcases hδ with ⟨Δ, hΔ1, hΔ2⟩
        rw [List.all_eq_true] at hΔ2
        have hΔ1' : w2.trace = w1.trace ++ Δ := hΔ1
        cases r2 <;> simp only [hrs] <;>
          exact ⟨Δ, hΔ1', fun ev hev => evNotSeg ev (Or.inr (Or.inr (hΔ2 ev hev)))⟩
      | true =>
        rw [if_pos (show (true : Bool) = true from rfl)]
        cases b with
        | true =>
          rw [if_pos (show (true : Bool) = true from rfl)]
          rcases hnw : nbcWriteStep w1 q with ⟨r2, w2⟩
          have hδ := nbcWriteStep_trace w1 q
          rw [hnw] at hδ
          rcases hδ with ⟨Δ1, hΔ1, hΔa⟩
          rw [List.all_eq_true] at hΔa
          have hΔ1' : w2.trace = w1.trace ++ Δ1 := hΔ1
          cases r2 with
          | error e =>
            simp only [hnw]
            exact ⟨Δ1, hΔ1', fun ev hev => evNotSeg ev (Or.inl (hΔa ev hev))⟩
          | ok u =>
            simp only [hnw]
            rcases hrs : rolloutStep w2 true q with ⟨r3, w3⟩
            have hδ3 := rolloutStep_trace w2 true q
            rw [hrs] at hδ3
            rcases hδ3 with ⟨Δ2, hΔ2, hΔb⟩
            rw [List.all_eq_true] at hΔb
            have hΔ2' : w3.trace = w2.trace ++ Δ2 := hΔ2
            cases r3 <;> simp only [hrs] <;>
              refine ⟨Δ1 ++ Δ2, by rw [hΔ2', hΔ1', List.append_assoc], ?_⟩ <;>
              · intro ev hev
                rcases List.mem_append.mp hev with h | h
                · exact evNotSeg ev (Or.inl (hΔa ev h))
                · exact evNotSeg ev (Or.inr (Or.inr (hΔb ev h)))
        | false =>
          rw [if_neg (show ¬((false : Bool) = true) from by simp)]
          have hδ := legacyWriteStep_trace w1 q
          rcases hδ with ⟨Δ1, hΔ1, hΔa⟩
          rw [List.all_eq_true] at hΔa
          rcases hrs : rolloutStep (legacyWriteStep w1 q) false q with ⟨r3, w3⟩
          have hδ3 := rolloutStep_trace (legacyWriteStep w1 q) false q
          rw [hrs] at hδ3
          rcases hδ3 with ⟨Δ2, hΔ2, hΔb⟩
          rw [List.all_eq_true] at hΔb
          have hΔ2' : w3.trace = (legacyWriteStep w1 q).trace ++ Δ2 := hΔ2
          cases r3 <;> simp only [hrs] <;>
            refine ⟨Δ1 ++ Δ2, by rw [hΔ2', hΔ1, List.append_assoc], ?_⟩ <;>
            · intro ev hev
              rcases List.mem_append.mp hev with h | h
              · exact evNotSeg ev (Or.inr (Or.inl (hΔa ev h)))
              · exact evNotSeg ev (Or.inr (Or.inr (hΔb ev h)))
  rcases main with ⟨Δ, hT, hΔ⟩
  have hP : patchCallsTo Δ segmentKeyCfg = false := by
    cases hx : Δ.any (fun ev => isPatchTo ev segmentKeyCfg) with
    | true =>
      exfalso
      rcases List.any_eq_true.mp hx with ⟨ev, hev, hp⟩
      rw [(hΔ ev hev).1] at hp
      exact Bool.false_ne_true hp
    | false => exact hx
  have hF : Δ.any isSegmentFieldPatch = false := by
    cases hx : Δ.any isSegmentFieldPatch with
    | true =>
      exfalso
      rcases List.any_eq_true.mp hx with ⟨ev, hev, hp⟩
      rw [(hΔ ev hev).2] at hp
      exact Bool.false_ne_true hp
    | false => rfl
  rcases trackingStep_trace ⟨seg, nb, jh, fts, []⟩ q with ⟨hnull, htr⟩ | ⟨hnull, htr⟩ <;>
    rw [hts] at htr
  · have hT' : ((updateClusterSettings ⟨seg, nb, jh, fts, []⟩ b q).2).trace = Δ := by
      rw [hT, htr]
      rfl
    rw [hT']
    constructor
    · rw [show patchCallsTo Δ segmentKeyCfg = false from hP]
      simp [hnull]
    · rw [show segmentFieldPatched Δ = Δ.any isSegmentFieldPatch from rfl, hF]
      simp [hnull]
  · have hT' : ((updateClusterSettings ⟨seg, nb, jh, fts, []⟩ b q).2).trace =
        TraceEv.patchCall segmentKeyCfg
          (match q.userTrackingEnabled with
           | some s => [("segmentKeyEnabled", s)]
           | none => []) :: Δ := by
      rw [hT, htr]
      rfl
    rw [hT']
    constructor
    · constructor
      · intro _
        exact hnull
      · intro _
        simp [patchCallsTo, isPatchTo]
    · rw [show segmentFieldPatched (TraceEv.patchCall segmentKeyCfg
          (match q.userTrackingEnabled with
           | some s => [("segmentKeyEnabled", s)]
           | none => []) :: Δ) =
          (isSegmentFieldPatch (TraceEv.patchCall segmentKeyCfg
            (match q.userTrackingEnabled with
             | some s => [("segmentKeyEnabled", s)]
             | none => [])) || Δ.any isSegmentFieldPatch) from rfl, hF]
      cases hut : q.userTrackingEnabled with
      | none => simp [isSegmentFieldPatch]
      | some s =>
        have hsne : s ≠ "null" := by
          intro hh
          exact hnull (by rw [hut, hh])
        simp [isSegmentFieldPatch, hsne]

/-- Helper: a read or rollout event writes no ConfigMap. -/
theorem evOk (ev : TraceEv) (h : isReadOrRollout ev = true) :
    (!(isWriteTo ev nbcCfg || isWriteTo ev jupyterhubCfg)) = true := by
  cases ev <;> simp [isReadOrRollout] at h <;> simp [isWriteTo]

/-- Claim C8, confirmed.  When pvcSize or cullerTimeout is absent
from the query, the update never patches, creates or deletes either
the culling ConfigMap or the legacy ConfigMap, and both are unchanged
afterward, whatever the mode, the faults, and the rest of the
query. -/
theorem c8_theorem : ∀ (seg nb jh : Option CMData) (fts : List (Verb × String × KubeErr))
    (b : Bool) (q : Query),
    q.pvcSize = none ∨ q.cullerTimeout = none →
    ((updateClusterSettings ⟨seg, nb, jh, fts, []⟩ b q).2).nbcCM = nb ∧
    ((updateClusterSettings ⟨seg, nb, jh, fts, []⟩ b q).2).jupyterhubCM = jh ∧
    ((updateClusterSettings ⟨seg, nb, jh, fts, []⟩ b q).2).trace.all
      (fun ev => !(isWriteTo ev nbcCfg || isWriteTo ev jupyterhubCfg)) = true := by
  intro seg nb jh fts b q hq
  have hcond : (jsTruthyStr q.pvcSize && jsTruthyStr q.cullerTimeout) = false := by
    rcases hq with h | h <;> simp [h, jsTruthyStr]
  unfold updateClusterSettings
  rcases hts : trackingStep ⟨seg, nb, jh, fts, []⟩ q with ⟨r1, w1⟩
  have h1n : w1.nbcCM = nb := by
    have := trackingStep_nbcCM ⟨seg, nb, jh, fts, []⟩ q
    rw [hts] at this
    exact this
  have h1j : w1.jupyterhubCM = jh := by
    have := trackingStep_jhCM ⟨seg, nb, jh, fts, []⟩ q
    rw [hts] at this
    exact this
  have h1all : w1.trace.all
      (fun ev => !(isWriteTo ev nbcCfg || isWriteTo ev jupyterhubCfg)) = true := by
    have e1 : (segmentKeyCfg == nbcCfg) = false := rfl
    have e2 : (segmentKeyCfg == jupyterhubCfg) = false := rfl
    rcases trackingStep_trace ⟨seg, nb, jh, fts, []⟩ q with ⟨_, htr⟩ | ⟨_, htr⟩ <;>
      rw [hts] at htr <;>
      simp [show (w1.trace : List TraceEv) = _ from htr, isWriteTo, e1, e2]
  cases r1 with
  | error e =>
    simp only [hts]
    exact ⟨h1n, h1j, h1all⟩
  | ok a =>
    simp only [hts, hcond, Bool.false_eq_true, if_false]
    rcases hrs : rolloutStep w1 b q with ⟨r2, w2⟩
    have h2n : w2.nbcCM = nb := by
      have := rolloutStep_nbcCM w1 b q
      rw [hrs] at this
      rw [show (w2.nbcCM : Option CMData) = w1.nbcCM from this, h1n]
    have h2j : w2.jupyterhubCM = jh := by
      have := rolloutStep_jhCM w1 b q
      rw [hrs] at this
      rw [show (w2.jupyterhubCM : Option CMData) = w1.jupyterhubCM from this, h1j]
    have h2all : w2.trace.all
        (fun ev => !(isWriteTo ev nbcCfg || isWriteTo ev jupyterhubCfg)) = true := by
      have hδ := rolloutStep_trace w1 b q
      rw [hrs] at hδ
      rcases hδ with ⟨δ, hδ1, hδ2⟩
      have hδ1' : w2.trace = w1.trace ++ δ := hδ1
      rw [hδ1', List.all_append, Bool.and_eq_true]
      refine ⟨h1all, ?_⟩
      rw [List.all_eq_true] at hδ2 ⊢
      intro ev hev
      exact evOk ev (hδ2 ev hev)
    cases r2 <;> simp only [hrs] <;> exact ⟨h2n, h2j, h2all⟩

/-- Helper: the read primitive errors exactly as `readErr`
predicts. -/
theorem read_vs_readErr (w : World) (n : String) :
    (∀ e, (readNamespacedConfigMap w n).1 = Except.error e → readErr w n = some e) ∧
    (∀ d, (readNamespacedConfigMap w n).1 = Except.ok d → readErr w n = none) := by
  unfold readNamespacedConfigMap readErr
  cases hf : findFault w Verb.read n <;> cases hg : getCM w n <;> simp [hf, hg]

/-- Helper: a read leaves every readability verdict unchanged. -/
theorem readErr_read2 (w : World) (n m : String) :
    readErr ((readNamespacedConfigMap w n).2) m = readErr w m := by
  unfold readNamespacedConfigMap
  cases hf : findFault w Verb.read n <;> cases hg : getCM w n <;> simp [hf, hg]

/-- Claim C10, confirmed.  `getClusterSettings` never produces an
error string: for every cluster state it either returns a complete
settings record — in which a failed read of the tracking ConfigMap
leaves `userTrackingEnabled` null, and, in legacy mode, a failed read
of the legacy ConfigMap leaves `pvcSize` and `cullerTimeout` at their
defaults — or it throws, which happens only in notebook-controller
mode on a non-404 error while reading the culling ConfigMap. -/
theorem c10_theorem : ∀ (w : World) (b : Bool),
    match (getClusterSettings w b).1 with
    | GetOutcome.thrown e =>
        b = true ∧ readErr w nbcCfg = some e ∧ ¬ e.statusCode = some 404
    | GetOutcome.ok s =>
        (readErr w segmentKeyCfg ≠ none → s.userTrackingEnabled = none) ∧
        (b = false → readErr w jupyterhubCfg ≠ none →
          s.pvcSize = some DEFAULT_PVC_SIZE ∧ s.cullerTimeout = some DEFAULT_CULLER_TIMEOUT) := by
  intro w b
  unfold getClusterSettings
  rcases hseg : readNamespacedConfigMap w segmentKeyCfg with ⟨rSeg, w1⟩
  have hsegO : ∀ d, rSeg = Except.ok d → readErr w segmentKeyCfg = none := by
    intro d hd
    exact (read_vs_readErr w segmentKeyCfg).2 d (by rw [hseg]; exact hd)
  have hw1 : ∀ m, readErr w1 m = readErr w m := by
    intro m
    have := readErr_read2 w segmentKeyCfg m
    rw [hseg] at this
    exact this
  simp only [hseg]
  cases b with
  | true =>
    rw [if_pos (show (true : Bool) = true from rfl)]
    rcases hn : readNamespacedConfigMap w1 nbcCfg with ⟨rN, w2⟩
    have hnE : ∀ e, rN = Except.error e → readErr w nbcCfg = some e := by
      intro e he
      rw [← hw1 nbcCfg]
      exact (read_vs_readErr w1 nbcCfg).1 e (by rw [hn]; exact he)
    simp only [hn]
    cases rN with
    | ok d =>
      cases hen : jsTruthyStr (getVal d "ENABLE_CULLING") with
      | true =>
        simp only [hen, if_pos (show (true : Bool) = true from rfl)]
        cases rSeg with
        | error eS =>
          exact ⟨fun _ => rfl, fun hb => by exact absurd hb (by simp)⟩
        | ok dS =>
          exact ⟨fun hne => absurd (hsegO dS rfl) hne, fun hb => by exact absurd hb (by simp)⟩
      | false =>
        simp only [hen, if_neg (show ¬((false : Bool) = true) from by simp)]
        cases rSeg with
        | error eS =>
          exact ⟨fun _ => rfl, fun hb => by exact absurd hb (by simp)⟩
        | ok dS =>
          exact ⟨fun hne => absurd (hsegO dS rfl) hne, fun hb => by exact absurd hb (by simp)⟩
    | error e =>
      cases h404 : (e.statusCode == some 404) with
      | true =>
        simp only [h404, if_pos (show (true : Bool) = true from rfl)]
        cases rSeg with
        | error eS =>
          exact ⟨fun _ => rfl, fun hb => by exact absurd hb (by simp)⟩
        | ok dS =>
          exact ⟨fun hne => absurd (hsegO dS rfl) hne, fun hb => by exact absurd hb (by simp)⟩
      | false =>
        simp only [h404, if_neg (show ¬((false : Bool) = true) from by simp)]
        refine ⟨by trivial, hnE e rfl, ?_⟩
        intro hc
        rw [hc] at h404
        simp at h404
  | false =>
    rw [if_neg (show ¬((false : Bool) = true) from by simp)]
    unfold readJupyterhubCfg
    rcases hj : readNamespacedConfigMap w1 jupyterhubCfg with ⟨rJ, w2⟩
    have hjO : ∀ d, rJ = Except.ok d → readErr w jupyterhubCfg = none := by
      intro d hd
      rw [← hw1 jupyterhubCfg]
      exact (read_vs_readErr w1 jupyterhubCfg).2 d (by rw [hj]; exact hd)
    simp only [hj]
    cases rJ with
    | error e =>
      cases rSeg with
      | error eS => exact ⟨fun _ => rfl, fun _ _ => ⟨rfl, rfl⟩⟩
      | ok dS => exact ⟨fun hne => absurd (hsegO dS rfl) hne, fun _ _ => ⟨rfl, rfl⟩⟩
    | ok d =>
      cases hv : getVal d "singleuser_pvc_size" with
      | none =>
        simp only [hv]
        cases rSeg with
        | error eS =>
          exact ⟨fun _ => rfl, fun _ hne => absurd (hjO d rfl) hne⟩
        | ok dS =>
          exact ⟨fun hne => absurd (hsegO dS rfl) hne, fun _ hne => absurd (hjO d rfl) hne⟩
      | some pvcStr =>
        simp only [hv]
        cases rSeg with
        | error eS =>
          exact ⟨fun _ => rfl, fun _ hne => absurd (hjO d rfl) hne⟩
        | ok dS =>
          exact ⟨fun hne => absurd (hsegO dS rfl) hne, fun _ hne => absurd (hjO d rfl) hne⟩

/-- Claim C8, witness: a request carrying only the tracking flag, on
a cluster where both stores exist. -/
theorem c8_witness :
    ((⟨none, none, some "true"⟩ : Query).pvcSize = none ∨
      (⟨none, none, some "true"⟩ : Query).cullerTimeout = none) ∧
    ((updateClusterSettings ⟨some [], some [("x", "y")], some cmLegacy100, [], []⟩ false
        ⟨none, none, some "true"⟩).2).nbcCM = some [("x", "y")] ∧
    ((updateClusterSettings ⟨some [], some [("x", "y")], some cmLegacy100, [], []⟩ false
        ⟨none, none, some "true"⟩).2).jupyterhubCM = some cmLegacy100 ∧
    ((updateClusterSettings ⟨some [], some [("x", "y")], some cmLegacy100, [], []⟩ false
        ⟨none, none, some "true"⟩).2).trace.all
      (fun ev => !(isWriteTo ev nbcCfg || isWriteTo ev jupyterhubCfg)) = true :=
  ⟨Or.inl rfl,
    c8_theorem (some []) (some [("x", "y")]) (some cmLegacy100) [] false
      ⟨none, none, some "true"⟩ (Or.inl rfl)⟩

/-- Claim C9, confirmed.  For every group name whose group custom
resource does not exist, `getGroup` fails with the distinguishable
`MissingGroupError` kind, not a generic error. -/
theorem c9_theorem : ∀ (env : GroupsEnv) (name : String),
    env.find? (fun g => g.1 == name) = none →
    getGroup env name = Except.error (GroupError.missingGroup
      ("Failed to retrieve Group " ++ name ++ ", might not exist.")) := by
  intro env name h
  unfold getGroup getClusterCustomObject
  rw [h]

/-- Claim C9, witness: a concrete environment without the requested
group. -/
theorem c9_witness :
    ([("odh-admins-x", ["u1"])] : GroupsEnv).find? (fun g => g.1 == "odh-admins") = none ∧
    getGroup [("odh-admins-x", ["u1"])] "odh-admins" =
      Except.error (GroupError.missingGroup
        "Failed to retrieve Group odh-admins, might not exist.") :=
  ⟨by decide, c9_theorem _ _ (by decide)⟩

end OdhDashboard
